import Mathlib

/-!
Verification of `src/tools/get_geo_waypoints.py` (repository
`air-traffic-controller`): a shallow embedding of the single function
`fetch_coastline_as_waypoints` together with the top-level serialization of
its result, and proofs of the spec's testable properties about them.

The Python function
  1. builds an Overpass query string from four bounding-box bounds,
  2. issues `requests.get` (only a transport failure raises here; the HTTP
     status code is never inspected by the code),
  3. calls `response.json()` (raises a JSON decode error when the body is
     not valid JSON, regardless of the status code),
  4. reshapes `data.get('elements', [])` into a list of segments, each
     segment the list of `{"lat": point['lat'], "lon": point['lon']}` built
     from `way.get('geometry', [])`.

Decoded JSON values are modelled by the inductive `Json`; numbers carry a
`Rat` payload (the program never computes with them, it only copies them, so
the payload type is irrelevant to every property proved below; IEEE float
printing is abstracted by an arbitrary rendering function wherever a number
would be turned into text).
-/

/-- A decoded JSON value, as produced by Python's `json` module: `null`,
booleans, numbers, strings, arrays, objects.  Objects are association lists
with string keys; Python dicts decoded from JSON have distinct keys, and the
embedding reads them with the first-match `List.lookup`. -/
inductive Json where
  | null : Json
  | bool : Bool → Json
  | num : Rat → Json
  | str : String → Json
  | arr : List Json → Json
  | obj : List (String × Json) → Json
deriving Repr

/-- The Python exceptions the script can raise, as named by the spec's error
taxonomy plus the built-in exceptions of the interpreter:
`networkError` models a `requests` transport exception raised by
`requests.get`, `decodeError` a `json.JSONDecodeError` raised by
`response.json()`, `attributeError` calling `.get` on a non-dict,
`typeError` iterating or subscripting a value of the wrong type, and
`keyError k` a failed `d[k]` subscript on a dict. -/
inductive PyErr where
  | networkError : PyErr
  | decodeError : PyErr
  | attributeError : PyErr
  | typeError : PyErr
  | keyError : String → PyErr
deriving Repr, DecidableEq

/-- The upstream HTTP response as `requests` hands it to the script:
a status code and a body.  The body is recorded as `some j` when it is valid
JSON decoding to `j`, and `none` when it is not valid JSON (so that
`response.json()` raises). -/
structure HttpResponse where
  status : Nat
  body : Option Json

/-- One output waypoint: the Python dict
`\x7b"lat": point['lat'], "lon": point['lon']\x7d`.  The two copied values are
arbitrary decoded JSON values, exactly as the code copies them. -/
structure Waypoint where
  lat : Json
  lon : Json
deriving Repr

/-- Python `d.get(key, default)`: on a dict, the value under `key` or the
default when the key is absent; on any non-dict value, `AttributeError`. -/
def dictGet (j : Json) (key : String) (dflt : Json) : Except PyErr Json :=
  match j with
  | Json.obj kvs => Except.ok ((kvs.lookup key).getD dflt)
  | _ => Except.error PyErr.attributeError

/-- Python `d[key]` with a string key: on a dict, the value under `key` or
`KeyError key` when absent; on any other value, `TypeError`. -/
def getItem (j : Json) (key : String) : Except PyErr Json :=
  match j with
  | Json.obj kvs =>
    match kvs.lookup key with
    | some v => Except.ok v
    | none => Except.error (PyErr.keyError key)
  | _ => Except.error PyErr.typeError

/-- Python iteration `for x in j`: lists yield their items, dicts their keys,
strings their one-character substrings; every other value raises
`TypeError`. -/
def pyIter (j : Json) : Except PyErr (List Json) :=
  match j with
  | Json.arr l => Except.ok l
  | Json.obj kvs => Except.ok (kvs.map (fun kv => Json.str kv.1))
  | Json.str s => Except.ok (s.data.map (fun c => Json.str (String.mk [c])))
  | _ => Except.error PyErr.typeError

/-- The inner loop of `fetch_coastline_as_waypoints` (source lines 29 to 33):
`waypoints.append(\x7b"lat": point['lat'], "lon": point['lon']\x7d)` for each
`point`, in order; the first raised exception aborts the whole call. -/
def mapWaypoints : List Json → Except PyErr (List Waypoint)
  | [] => Except.ok []
  | p :: ps =>
    match getItem p "lat" with
    | Except.error e => Except.error e
    | Except.ok la =>
      match getItem p "lon" with
      | Except.error e => Except.error e
      | Except.ok lo =>
        match mapWaypoints ps with
        | Except.error e => Except.error e
        | Except.ok rest => Except.ok ({ lat := la, lon := lo } :: rest)

/-- The body of the outer loop for one element (source lines 26 to 33):
iterate over `way.get('geometry', [])` and collect the element's waypoints
into one segment. -/
def segmentOfWay (way : Json) : Except PyErr (List Waypoint) :=
  match dictGet way "geometry" (Json.arr []) with
  | Except.error e => Except.error e
  | Except.ok geom =>
    match pyIter geom with
    | Except.error e => Except.error e
    | Except.ok pts => mapWaypoints pts

/-- The outer loop of `fetch_coastline_as_waypoints` (source lines 25 to 35):
`all_segments.append(waypoints)` for each `way`, in order. -/
def mapSegments : List Json → Except PyErr (List (List Waypoint))
  | [] => Except.ok []
  | w :: ws =>
    match segmentOfWay w with
    | Except.error e => Except.error e
    | Except.ok s =>
      match mapSegments ws with
      | Except.error e => Except.error e
      | Except.ok rest => Except.ok (s :: rest)

/-- `fetch_coastline_as_waypoints` after the request has been issued.  The
argument is the outcome of `requests.get`: `Except.error ()` is a transport
failure (the exception propagates as `networkError`), `Except.ok response`
is a completed HTTP exchange of any status.  The code never reads
`response.status_code`; it calls `response.json()` (which raises
`decodeError` exactly when the body is not valid JSON) and then reshapes
`data.get('elements', [])`. -/
def fetch_coastline_as_waypoints (http : Except Unit HttpResponse) :
    Except PyErr (List (List Waypoint)) :=
  match http with
  | Except.error _ => Except.error PyErr.networkError
  | Except.ok response =>
    match response.body with
    | none => Except.error PyErr.decodeError
    | some data =>
      match dictGet data "elements" (Json.arr []) with
      | Except.error e => Except.error e
      | Except.ok elements =>
        match pyIter elements with
        | Except.error e => Except.error e
        | Except.ok ways => mapSegments ways

/-- The Overpass query f-string of source lines 11 to 17, with the Python
`str`-of-float rendering of the four interpolated bounds abstracted as
`rn`. -/
def overpassQuery (rn : Rat → String) (min_lat min_lon max_lat max_lon : Rat) :
    String :=
  "\n    [out:json][timeout:25];\n    (\n      way[\"natural\"=\"coastline\"](" ++
    rn min_lat ++ ", " ++ rn min_lon ++ ", " ++ rn max_lat ++ ", " ++
    rn max_lon ++ ");\n    );\n    out geom;\n    "

/-- The part of the query string before the bounding-box filter clause. -/
def queryHead : String :=
  "\n    [out:json][timeout:25];\n    (\n      way[\"natural\"=\"coastline\"]"

/-- The part of the query string after the bounding-box filter clause. -/
def queryTail : String := ";\n    );\n    out geom;\n    "

/-- The hard-coded example bounding box of source line 42:
`(34.2, 138.1, 36.9, 141.4)`, order (south, west, north, east). -/
def bbox_haneda : Rat × Rat × Rat × Rat := (34.2, 138.1, 36.9, 141.4)

/-- A run of `n` spaces, as emitted by `json.dumps(..., indent=2)`. -/
def indentStr (n : Nat) : String := String.mk (List.replicate n ' ')

/-- `json.dumps` with `indent=2` on one waypoint dict, at enclosing
indentation `ind`; the rendering of the two leaf values is abstracted as
`rv` (for the program's data these are floats, whose `repr` the embedding
does not model). -/
def dumpsWaypoint (rv : Json → String) (ind : Nat) (w : Waypoint) : String :=
  "\x7b\n" ++ indentStr (ind + 2) ++ "\"lat\": " ++ rv w.lat ++ ",\n" ++
    indentStr (ind + 2) ++ "\"lon\": " ++ rv w.lon ++ "\n" ++
    indentStr ind ++ "\x7d"

/-- `json.dumps` with `indent=2` on one segment (a list of waypoint dicts):
`[]` when empty, otherwise one item per line at indentation `ind + 2`. -/
def dumpsSegment (rv : Json → String) (ind : Nat) (seg : List Waypoint) :
    String :=
  match seg with
  | [] => "[]"
  | _ =>
    "[\n" ++
      String.intercalate ",\n"
        (seg.map (fun w => indentStr (ind + 2) ++ dumpsWaypoint rv (ind + 2) w)) ++
      "\n" ++ indentStr ind ++ "]"

/-- The top-level `print(json.dumps(coast_data, indent=2))` serialization of
source line 47 applied to the returned list of segments: `[]` when the list
is empty, otherwise one segment per line at indentation 2. -/
def dumpsResult (rv : Json → String) (segs : List (List Waypoint)) : String :=
  match segs with
  | [] => "[]"
  | _ =>
    "[\n" ++
      String.intercalate ",\n"
        (segs.map (fun s => indentStr 2 ++ dumpsSegment rv 2 s)) ++
      "\n]"

/-- A concrete geometry point `\x7b"lat": 35, "lon": 139\x7d` used to
instantiate the theorems below on closed inputs. -/
def demoPoint1 : Json := Json.obj [("lat", Json.num 35), ("lon", Json.num 139)]

/-- A second concrete geometry point. -/
def demoPoint2 : Json :=
  Json.obj [("lat", Json.num (351 / 10)), ("lon", Json.num (1391 / 10))]

/-- A concrete way element with a two-point geometry. -/
def demoWay1 : Json :=
  Json.obj [("type", Json.str "way"),
            ("geometry", Json.arr [demoPoint1, demoPoint2])]

/-- A concrete element with no `geometry` key. -/
def demoWay2 : Json := Json.obj [("type", Json.str "way")]

/-- A concrete top-level response object with two elements. -/
def demoKvs : List (String × Json) :=
  [("elements", Json.arr [demoWay1, demoWay2])]

/-! ## Helper lemmas -/

/-- Reducing `fetch_coastline_as_waypoints` on a completed response whose
body decodes to an object carrying an `elements` array: the call is the
outer loop over that array, and the status code plays no part. -/
theorem fetch_eq_mapSegments (st : Nat) (kvs : List (String × Json))
    (elems : List Json)
    (h : kvs.lookup "elements" = some (Json.arr elems)) :
    fetch_coastline_as_waypoints
      (Except.ok { status := st, body := some (Json.obj kvs) }) =
      mapSegments elems := by
  simp [fetch_coastline_as_waypoints, dictGet, pyIter, h]

/-- Soundness of the inner loop: if every point of the geometry array is an
object carrying `lat` and `lon` keys, the loop succeeds, returns one
waypoint per point, and the i-th waypoint copies the i-th point's `lat` and
`lon` values. -/
theorem mapWaypoints_sound :
    ∀ pts : List Json,
    (∀ p ∈ pts, ∃ pkvs la lo, p = Json.obj pkvs ∧
      pkvs.lookup "lat" = some la ∧ pkvs.lookup "lon" = some lo) →
    ∃ wps, mapWaypoints pts = Except.ok wps ∧ wps.length = pts.length ∧
      ∀ (i : Nat) (hi : i < pts.length) (hw : i < wps.length)
        (pkvs : List (String × Json)) (la lo : Json),
        pts.get ⟨i, hi⟩ = Json.obj pkvs → pkvs.lookup "lat" = some la →
        pkvs.lookup "lon" = some lo →
        wps.get ⟨i, hw⟩ = { lat := la, lon := lo }
  | [], _ => ⟨[], rfl, rfl, fun i hi => absurd hi (Nat.not_lt_zero i)⟩
  | p :: ps, H => by
    obtain ⟨pkvs, la, lo, hp, hla, hlo⟩ := H p (List.mem_cons_self p ps)
    obtain ⟨wps, hmap, hlen, hpt⟩ :=
      mapWaypoints_sound ps (fun q hq => H q (List.mem_cons_of_mem p hq))
    refine ⟨{ lat := la, lon := lo } :: wps, ?_, by simp [hlen], ?_⟩
    · subst hp
      simp [mapWaypoints, getItem, hla, hlo, hmap]
    · intro i hi hw pkvs2 la2 lo2 hp2 hla2 hlo2
      cases i with
      | zero =>
        simp only [List.get] at hp2 ⊢
        rw [hp] at hp2
        cases hp2
        rw [hla] at hla2
        rw [hlo] at hlo2
        cases hla2
        cases hlo2
        rfl
      | succ n =>
        exact hpt n (Nat.lt_of_succ_lt_succ hi) (Nat.lt_of_succ_lt_succ hw)
          pkvs2 la2 lo2 hp2 hla2 hlo2

/-- Soundness of the outer loop: if every element processes successfully,
the loop succeeds, returns one segment per element, and the i-th segment is
the one produced from the i-th element. -/
theorem mapSegments_sound :
    ∀ elems : List Json,
    (∀ e ∈ elems, ∃ s, segmentOfWay e = Except.ok s) →
    ∃ segs, mapSegments elems = Except.ok segs ∧
      segs.length = elems.length ∧
      ∀ (i : Nat) (hi : i < elems.length) (hs : i < segs.length),
        segmentOfWay (elems.get ⟨i, hi⟩) = Except.ok (segs.get ⟨i, hs⟩)
  | [], _ => ⟨[], rfl, rfl, fun i hi => absurd hi (Nat.not_lt_zero i)⟩
  | e :: es, H => by
    obtain ⟨s, hs⟩ := H e (List.mem_cons_self e es)
    obtain ⟨segs, hmap, hlen, hpt⟩ :=
      mapSegments_sound es (fun q hq => H q (List.mem_cons_of_mem e hq))
    refine ⟨s :: segs, ?_, by simp [hlen], ?_⟩
    · simp [mapSegments, hs, hmap]
    · intro i hi hw
      cases i with
      | zero => simpa using hs
      | succ n =>
        exact hpt n (Nat.lt_of_succ_lt_succ hi) (Nat.lt_of_succ_lt_succ hw)

/-- A segment built from an object with no `geometry` key is empty. -/
theorem segmentOfWay_no_geometry (ekvs : List (String × Json))
    (h : ekvs.lookup "geometry" = none) :
    segmentOfWay (Json.obj ekvs) = Except.ok [] := by
  simp [segmentOfWay, dictGet, pyIter, h, mapWaypoints]

/-! ## Claim theorems -/

/-- C1: for every decoded response object whose `elements` field is an array
of N element objects (each of which the loop body processes successfully),
`fetch_coastline_as_waypoints` returns a Result of exactly N segments, and
the i-th segment is the one built from the i-th element, order preserved. -/
theorem fetch_one_segment_per_element (st : Nat)
    (kvs : List (String × Json)) (elems : List Json)
    (helems : kvs.lookup "elements" = some (Json.arr elems))
    (hok : ∀ e ∈ elems, ∃ s, segmentOfWay e = Except.ok s) :
    ∃ segs, fetch_coastline_as_waypoints
        (Except.ok { status := st, body := some (Json.obj kvs) }) =
        Except.ok segs ∧
      segs.length = elems.length ∧
      ∀ (i : Nat) (hi : i < elems.length) (hs : i < segs.length),
        segmentOfWay (elems.get ⟨i, hi⟩) = Except.ok (segs.get ⟨i, hs⟩) := by
  obtain ⟨segs, hmap, hlen, hpt⟩ := mapSegments_sound elems hok
  refine ⟨segs, ?_, hlen, hpt⟩
  rw [fetch_eq_mapSegments st kvs elems helems]
  exact hmap

/-- C1 witness: the hypotheses and conclusion of
`fetch_one_segment_per_element` at the concrete two-element response. -/
theorem fetch_one_segment_per_element_witness :
    (demoKvs.lookup "elements" = some (Json.arr [demoWay1, demoWay2])) ∧
    (∀ e ∈ [demoWay1, demoWay2], ∃ s, segmentOfWay e = Except.ok s) ∧
    (∃ segs, fetch_coastline_as_waypoints
        (Except.ok { status := 200, body := some (Json.obj demoKvs) }) =
        Except.ok segs ∧
      segs.length = [demoWay1, demoWay2].length ∧
      ∀ (i : Nat) (hi : i < [demoWay1, demoWay2].length)
        (hs : i < segs.length),
        segmentOfWay ([demoWay1, demoWay2].get ⟨i, hi⟩) =
          Except.ok (segs.get ⟨i, hs⟩)) := by
  have hok : ∀ e ∈ [demoWay1, demoWay2], ∃ s, segmentOfWay e = Except.ok s := by
    intro e he
    fin_cases he
    · exact ⟨_, rfl⟩
    · exact ⟨_, rfl⟩
  exact ⟨rfl, hok, fetch_one_segment_per_element 200 demoKvs [demoWay1, demoWay2] rfl hok⟩

/-- C2: for every element object whose `geometry` field is an array of K
point objects each carrying `lat` and `lon` keys, the produced Segment has
exactly K waypoints, the i-th waypoint copying the i-th point's `lat` and
`lon` values in order; and through the full call, a response whose single
element is that object yields exactly that Segment. -/
theorem segment_copies_geometry (st : Nat) (kvs : List (String × Json))
    (pts : List Json)
    (hgeom : kvs.lookup "geometry" = some (Json.arr pts))
    (hpts : ∀ p ∈ pts, ∃ pkvs la lo, p = Json.obj pkvs ∧
      pkvs.lookup "lat" = some la ∧ pkvs.lookup "lon" = some lo) :
    ∃ wps, segmentOfWay (Json.obj kvs) = Except.ok wps ∧
      wps.length = pts.length ∧
      (∀ (i : Nat) (hi : i < pts.length) (hw : i < wps.length)
        (pkvs : List (String × Json)) (la lo : Json),
        pts.get ⟨i, hi⟩ = Json.obj pkvs → pkvs.lookup "lat" = some la →
        pkvs.lookup "lon" = some lo →
        wps.get ⟨i, hw⟩ = { lat := la, lon := lo }) ∧
      fetch_coastline_as_waypoints
        (Except.ok ⟨st, some (Json.obj [("elements", Json.arr [Json.obj kvs])])⟩) =
        Except.ok [wps] := by
  obtain ⟨wps, hmap, hlen, hpt⟩ := mapWaypoints_sound pts hpts
  have hseg : segmentOfWay (Json.obj kvs) = Except.ok wps := by
    simp [segmentOfWay, dictGet, pyIter, hgeom, hmap]
  refine ⟨wps, hseg, hlen, hpt, ?_⟩
  rw [fetch_eq_mapSegments st [("elements", Json.arr [Json.obj kvs])]
    [Json.obj kvs] rfl]
  simp [mapSegments, hseg]

/-- C2 witness: the hypotheses and conclusion of `segment_copies_geometry`
at the concrete two-point way element. -/
theorem segment_copies_geometry_witness :
    ([("type", Json.str "way"),
      ("geometry", Json.arr [demoPoint1, demoPoint2])].lookup "geometry" =
        some (Json.arr [demoPoint1, demoPoint2])) ∧
    (∀ p ∈ [demoPoint1, demoPoint2], ∃ pkvs la lo, p = Json.obj pkvs ∧
      pkvs.lookup "lat" = some la ∧ pkvs.lookup "lon" = some lo) ∧
    (∃ wps, segmentOfWay (Json.obj [("type", Json.str "way"),
        ("geometry", Json.arr [demoPoint1, demoPoint2])]) = Except.ok wps ∧
      wps.length = [demoPoint1, demoPoint2].length ∧
      (∀ (i : Nat) (hi : i < [demoPoint1, demoPoint2].length)
        (hw : i < wps.length)
        (pkvs : List (String × Json)) (la lo : Json),
        [demoPoint1, demoPoint2].get ⟨i, hi⟩ = Json.obj pkvs →
        pkvs.lookup "lat" = some la → pkvs.lookup "lon" = some lo →
        wps.get ⟨i, hw⟩ = { lat := la, lon := lo }) ∧
      fetch_coastline_as_waypoints
        (Except.ok ⟨200, some (Json.obj [("elements",
          Json.arr [Json.obj [("type", Json.str "way"),
            ("geometry", Json.arr [demoPoint1, demoPoint2])]])])⟩) =
        Except.ok [wps]) := by
  have hpts : ∀ p ∈ [demoPoint1, demoPoint2], ∃ pkvs la lo,
      p = Json.obj pkvs ∧ pkvs.lookup "lat" = some la ∧
      pkvs.lookup "lon" = some lo := by
    intro p hp
    fin_cases hp
    · exact ⟨_, _, _, rfl, rfl, rfl⟩
    · exact ⟨_, _, _, rfl, rfl, rfl⟩
  exact ⟨rfl, hpts, segment_copies_geometry 200 _ [demoPoint1, demoPoint2] rfl hpts⟩

/-- C3 counterexample: a completed response with the non-2xx status 500 and
a valid JSON body (an Overpass error remark, with no `elements` field) makes
`fetch_coastline_as_waypoints` return successfully, so it does not fail with
NetworkError as the claim states. -/
theorem non2xx_no_networkError_counterexample :
    ¬ (200 ≤ 500 ∧ 500 < 300) ∧
    fetch_coastline_as_waypoints
      (Except.ok ⟨500, some (Json.obj [("remark", Json.str "runtime error")])⟩) =
      Except.ok [] ∧
    fetch_coastline_as_waypoints
      (Except.ok ⟨500, some (Json.obj [("remark", Json.str "runtime error")])⟩) ≠
      Except.error PyErr.networkError :=
  ⟨by decide, rfl, fun h => Except.noConfusion h⟩

/-- C3 (amended): the HTTP status code never influences the outcome of
`fetch_coastline_as_waypoints`; a completed response whose body is not valid
JSON fails with DecodeError whatever the status, and only a transport-level
failure of the request itself yields NetworkError. -/
theorem status_code_ignored (st : Nat) (b : Option Json) (u : Unit) :
    fetch_coastline_as_waypoints (Except.ok ⟨st, b⟩) =
      fetch_coastline_as_waypoints (Except.ok ⟨200, b⟩) ∧
    fetch_coastline_as_waypoints (Except.ok ⟨st, none⟩) =
      Except.error PyErr.decodeError ∧
    fetch_coastline_as_waypoints (Except.error u) =
      Except.error PyErr.networkError :=
  ⟨rfl, rfl, rfl⟩

/-- C4: a response whose body is not valid JSON makes
`fetch_coastline_as_waypoints` fail with DecodeError, and no Result (partial
or empty) is returned. -/
theorem invalid_json_decodeError (st : Nat) :
    fetch_coastline_as_waypoints (Except.ok ⟨st, none⟩) =
      Except.error PyErr.decodeError ∧
    ∀ segs, fetch_coastline_as_waypoints (Except.ok ⟨st, none⟩) ≠
      Except.ok segs :=
  ⟨rfl, fun _ h => Except.noConfusion h⟩

/-- C5: an element object with no `geometry` key yields an empty Segment and
no error, both for the loop body itself and through the full call on a
response whose single element it is. -/
theorem no_geometry_empty_segment (st : Nat) (ekvs : List (String × Json))
    (h : ekvs.lookup "geometry" = none) :
    segmentOfWay (Json.obj ekvs) = Except.ok [] ∧
    fetch_coastline_as_waypoints
      (Except.ok ⟨st, some (Json.obj [("elements", Json.arr [Json.obj ekvs])])⟩) =
      Except.ok [[]] := by
  have hseg := segmentOfWay_no_geometry ekvs h
  refine ⟨hseg, ?_⟩
  rw [fetch_eq_mapSegments st [("elements", Json.arr [Json.obj ekvs])]
    [Json.obj ekvs] rfl]
  simp [mapSegments, hseg]

/-- C5 witness: `no_geometry_empty_segment` at the concrete element
`\x7b"type": "way"\x7d`. -/
theorem no_geometry_empty_segment_witness :
    ([("type", Json.str "way")].lookup "geometry" = none) ∧
    segmentOfWay (Json.obj [("type", Json.str "way")]) = Except.ok [] ∧
    fetch_coastline_as_waypoints
      (Except.ok ⟨200, some (Json.obj
        [("elements", Json.arr [Json.obj [("type", Json.str "way")]])])⟩) =
      Except.ok [[]] :=
  ⟨rfl, no_geometry_empty_segment 200 [("type", Json.str "way")] rfl⟩

/-- C6: a decoded response object with no `elements` key makes
`fetch_coastline_as_waypoints` return the empty Result, not an error. -/
theorem missing_elements_empty_result (st : Nat) (kvs : List (String × Json))
    (h : kvs.lookup "elements" = none) :
    fetch_coastline_as_waypoints (Except.ok ⟨st, some (Json.obj kvs)⟩) =
      Except.ok [] := by
  simp [fetch_coastline_as_waypoints, dictGet, h, pyIter, mapSegments]

/-- C6 witness: `missing_elements_empty_result` at the concrete response
body `\x7b"remark": "x"\x7d`. -/
theorem missing_elements_empty_result_witness :
    ([("remark", Json.str "x")].lookup "elements" = none) ∧
    fetch_coastline_as_waypoints
      (Except.ok ⟨200, some (Json.obj [("remark", Json.str "x")])⟩) =
      Except.ok [] :=
  ⟨rfl, missing_elements_empty_result 200 [("remark", Json.str "x")] rfl⟩

/-- C7: for every bounding box with `min_lat ≤ max_lat` and
`min_lon ≤ max_lon` (and any rendering of numbers to text), the constructed
query string is a prefix ending in the opening parenthesis of the
bounding-box filter clause, then the four bounds in the order (minLat,
minLon, maxLat, maxLon) separated by commas, then the closing parenthesis
and the rest of the query. -/
theorem query_bounds_in_order (rn : Rat → String)
    (min_lat min_lon max_lat max_lon : Rat)
    (h1 : min_lat ≤ max_lat) (h2 : min_lon ≤ max_lon) :
    ∃ pre post,
      overpassQuery rn min_lat min_lon max_lat max_lon =
        pre ++ rn min_lat ++ ", " ++ rn min_lon ++ ", " ++ rn max_lat ++
          ", " ++ rn max_lon ++ post ∧
      pre = queryHead ++ "(" ∧ post = ")" ++ queryTail :=
  ⟨queryHead ++ "(", ")" ++ queryTail, rfl, rfl, rfl⟩

/-- C7 witness: `query_bounds_in_order` at the hard-coded example bounding
box (34.2, 138.1, 36.9, 141.4) of source line 42, with numbers rendered by
their numerator. -/
theorem query_bounds_in_order_witness :
    ((34.2 : Rat) ≤ 36.9) ∧ ((138.1 : Rat) ≤ 141.4) ∧
    (∃ pre post,
      overpassQuery (fun q => toString q.num) 34.2 138.1 36.9 141.4 =
        pre ++ (fun q : Rat => toString q.num) 34.2 ++ ", " ++
          (fun q : Rat => toString q.num) 138.1 ++ ", " ++
          (fun q : Rat => toString q.num) 36.9 ++ ", " ++
          (fun q : Rat => toString q.num) 141.4 ++ post ∧
      pre = queryHead ++ "(" ∧ post = ")" ++ queryTail) :=
  ⟨by norm_num, by norm_num,
    query_bounds_in_order (fun q => toString q.num) 34.2 138.1 36.9 141.4
      (by norm_num) (by norm_num)⟩

/-- C8: a decoded response whose `elements` field is the empty array yields
the empty Result, and the pretty-printer of the driver code serializes that
Result as the two-character text `[]` (whatever the rendering of leaf
values). -/
theorem empty_elements_serializes_brackets (st : Nat)
    (kvs : List (String × Json)) (rv : Json → String)
    (h : kvs.lookup "elements" = some (Json.arr [])) :
    fetch_coastline_as_waypoints (Except.ok ⟨st, some (Json.obj kvs)⟩) =
      Except.ok [] ∧
    dumpsResult rv [] = "[]" := by
  refine ⟨?_, rfl⟩
  rw [fetch_eq_mapSegments st kvs [] h]
  rfl

/-- C8 witness: `empty_elements_serializes_brackets` at the concrete
response body `\x7b"elements": []\x7d`. -/
theorem empty_elements_serializes_brackets_witness :
    ([("elements", Json.arr [])].lookup "elements" = some (Json.arr [])) ∧
    fetch_coastline_as_waypoints
      (Except.ok ⟨200, some (Json.obj [("elements", Json.arr [])])⟩) =
      Except.ok [] ∧
    dumpsResult (fun _ => "") [] = "[]" :=
  ⟨rfl, empty_elements_serializes_brackets 200 [("elements", Json.arr [])]
    (fun _ => "") rfl⟩

/-- C9: a well-formed response holding one element whose geometry contains a
point object lacking the `lat` (resp. `lon`) key makes
`fetch_coastline_as_waypoints` fail with the key-lookup error
`KeyError lat` (resp. `KeyError lon`) instead of skipping the point or
substituting a default. -/
theorem missing_coordinate_key_error :
    fetch_coastline_as_waypoints
      (Except.ok ⟨200, some (Json.obj [("elements", Json.arr [Json.obj
        [("geometry", Json.arr [Json.obj [("lon", Json.num 139)]])]])])⟩) =
      Except.error (PyErr.keyError "lat") ∧
    fetch_coastline_as_waypoints
      (Except.ok ⟨200, some (Json.obj [("elements", Json.arr [Json.obj
        [("geometry", Json.arr [Json.obj [("lat", Json.num 35)]])]])])⟩) =
      Except.error (PyErr.keyError "lon") :=
  ⟨rfl, rfl⟩

/-- C10: no filtering on element type: whenever every object of the
`elements` array processes successfully, the Result has exactly one segment
per element; prepending a `type` field of any value to an element leaves its
segment unchanged; and an element object with no `geometry` key (whatever
its type) contributes the empty segment. -/
theorem no_element_type_filtering (st : Nat) (kvs : List (String × Json))
    (elems : List Json)
    (helems : kvs.lookup "elements" = some (Json.arr elems))
    (hok : ∀ e ∈ elems, ∃ s, segmentOfWay e = Except.ok s) :
    (∃ segs, fetch_coastline_as_waypoints
        (Except.ok ⟨st, some (Json.obj kvs)⟩) = Except.ok segs ∧
      segs.length = elems.length) ∧
    (∀ (t : Json) (ekvs : List (String × Json)),
      segmentOfWay (Json.obj (("type", t) :: ekvs)) =
        segmentOfWay (Json.obj ekvs)) ∧
    (∀ ekvs : List (String × Json), ekvs.lookup "geometry" = none →
      segmentOfWay (Json.obj ekvs) = Except.ok []) := by
  obtain ⟨segs, hmap, hlen, _⟩ := mapSegments_sound elems hok
  refine ⟨⟨segs, ?_, hlen⟩, fun t ekvs => rfl, segmentOfWay_no_geometry⟩
  rw [fetch_eq_mapSegments st kvs elems helems]
  exact hmap

/-- C10 witness: `no_element_type_filtering` on a response holding one
node-typed element and one way-typed element, neither carrying geometry. -/
theorem no_element_type_filtering_witness :
    ([("elements", Json.arr [Json.obj [("type", Json.str "node")],
        Json.obj [("type", Json.str "way")]])].lookup "elements" =
      some (Json.arr [Json.obj [("type", Json.str "node")],
        Json.obj [("type", Json.str "way")]])) ∧
    (∀ e ∈ [Json.obj [("type", Json.str "node")],
        Json.obj [("type", Json.str "way")]],
      ∃ s, segmentOfWay e = Except.ok s) ∧
    ((∃ segs, fetch_coastline_as_waypoints
        (Except.ok ⟨200, some (Json.obj [("elements",
          Json.arr [Json.obj [("type", Json.str "node")],
            Json.obj [("type", Json.str "way")]])])⟩) = Except.ok segs ∧
      segs.length = [Json.obj [("type", Json.str "node")],
        Json.obj [("type", Json.str "way")]].length) ∧
    (∀ (t : Json) (ekvs : List (String × Json)),
      segmentOfWay (Json.obj (("type", t) :: ekvs)) =
        segmentOfWay (Json.obj ekvs)) ∧
    (∀ ekvs : List (String × Json), ekvs.lookup "geometry" = none →
      segmentOfWay (Json.obj ekvs) = Except.ok [])) := by
  have hok : ∀ e ∈ [Json.obj [("type", Json.str "node")],
      Json.obj [("type", Json.str "way")]],
      ∃ s, segmentOfWay e = Except.ok s := by
    intro e he
    fin_cases he
    · exact ⟨_, rfl⟩
    · exact ⟨_, rfl⟩
  exact ⟨rfl, hok, no_element_type_filtering 200 _ _ rfl hok⟩
